import Mathlib

/-!
Shallow embedding of `mxget/provider/netease.py` (the NetEase music provider
client) and proofs about its request-signing codec, bit-rate mapping,
bulk-retrieval orchestration (playlist pagination, URL and lyric enrichment),
and the lyric-concurrency admission gate.

Network effects are modelled by explicit oracles: a fetch oracle maps a
request to `Except Err resp`, standing for the result of the corresponding
HTTP call after `*_raw` decoding/validation. Cryptographic primitives from
the `crypto` module and `hashlib` (not part of the provider file) are
abstracted as function parameters, as the spec describes them only as "a
cryptographic digest" and "a symmetric block cipher".
-/

set_option linter.unusedVariables false

namespace NetEase

/-- The three error kinds of `mxget.exceptions` used by the provider:
`RequestError` (transport/timeout), `ResponseError` (non-success status code
or parse failure), `DataError` (well-formed response lacking the payload). -/
inductive Err where
  | requestError (msg : String)
  | responseError (msg : String)
  | dataError (msg : String)
deriving DecidableEq, Repr

/-- JSON values, modelling the Python dict/list/str/int payloads the
provider builds with `json.dumps`. -/
inductive Json where
  | str (s : String)
  | num (n : Int)
  | obj (fields : List (String × Json))
  | arr (elems : List Json)

mutual

/-- Serialization of a `Json` value, modelling Python's `json.dumps` with its
default separators `", "` and `": "` (string escaping is not modelled; the
payloads the client builds contain no characters requiring escapes). -/
def Json.dumps : Json → String
  | .str s => "\x22" ++ s ++ "\x22"
  | .num n => toString n
  | .obj fields => "\x7b" ++ Json.dumpsFields fields ++ "\x7d"
  | .arr elems => "[" ++ Json.dumpsElems elems ++ "]"

/-- Comma-separated `"key": value` items of a JSON object. -/
def Json.dumpsFields : List (String × Json) → String
  | [] => ""
  | [(k, v)] => "\x22" ++ k ++ "\x22: " ++ Json.dumps v
  | (k, v) :: rest => "\x22" ++ k ++ "\x22: " ++ Json.dumps v ++ ", " ++ Json.dumpsFields rest

/-- Comma-separated items of a JSON array. -/
def Json.dumpsElems : List Json → String
  | [] => ""
  | [v] => Json.dumps v
  | v :: rest => Json.dumps v ++ ", " ++ Json.dumpsElems rest

end

/-- The `linux` scheme (`_linuxapi`): JSON-serialize the payload, AES-ECB
encrypt under `_LINUX_API_KEY`, hex-encode and upper-case into field
`eparams`. `aesEcbLinuxHexUpper` abstracts
`x => crypto.aes_ecb_encrypt(x, _LINUX_API_KEY).hex().upper()`; `rand`
models the process random source (`os.urandom`), which `_linuxapi` never
consults. -/
def linuxapi (rand : Nat → Nat) (aesEcbLinuxHexUpper : String → String)
    (origData : Json) : List (String × String) :=
  [("eparams", aesEcbLinuxHexUpper (Json.dumps origData))]

/-- The separator token `36cd479b6b5` of the `eapi` scheme. -/
def EAPI_SEP : String := "36cd479b6b5"

/-- The signature message of `_eapi`:
`'nobody{}use{}md5forencrypt'.format(url, plain_text)`. -/
def eapiMessage (url plainText : String) : String :=
  "nobody" ++ url ++ "use" ++ plainText ++ "md5forencrypt"

/-- The string `_eapi` encrypts:
`'{}-36cd479b6b5-{}-36cd479b6b5-{}'.format(url, plain_text, digest)`. -/
def eapiData (url plainText digest : String) : String :=
  url ++ "-" ++ EAPI_SEP ++ "-" ++ plainText ++ "-" ++ EAPI_SEP ++ "-" ++ digest

/-- The `eapi` scheme (`_eapi`): build the signature message, hash it
(`md5hex` abstracts `x => hashlib.md5(x).hexdigest()`), join url/json/digest
with the fixed separator, AES-ECB encrypt under `_EAPI_KEY`
(`aesEcbEapiHexUpper` abstracts
`x => crypto.aes_ecb_encrypt(x, _EAPI_KEY).hex().upper()`), into the single
field `params`. `rand` models `os.urandom`, never consulted here. -/
def eapi (rand : Nat → Nat) (md5hex aesEcbEapiHexUpper : String → String)
    (url : String) (origData : Json) : List (String × String) :=
  let plainText := Json.dumps origData
  let digest := md5hex (eapiMessage url plainText)
  [("params", aesEcbEapiHexUpper (eapiData url plainText digest))]

/-- Modelled from the spec claim C3's words, for comparison with `eapi`: the
signature string is `'nobody{url}use{json}forencrypt'` (without the `md5`
token the source inserts before `forencrypt`); the rest as the spec says. -/
def eapiClaimed (rand : Nat → Nat) (md5hex aesEcbEapiHexUpper : String → String)
    (url : String) (origData : Json) : List (String × String) :=
  let json := Json.dumps origData
  let digest := md5hex ("nobody" ++ url ++ "use" ++ json ++ "forencrypt")
  [("params", aesEcbEapiHexUpper
      (String.intercalate ("-" ++ EAPI_SEP ++ "-") [url, json, digest]))]

/-- Modelled from the spec's words amended by the source's message format:
signature string `'nobody{url}use{json}md5forencrypt'`; digest of it; join
`{url}-{sep}-{json}-{sep}-{digest}` with the fixed separator; encrypt,
hex-encode, upper-case into the single field `params`. -/
def eapiSpecAmended (rand : Nat → Nat) (md5hex aesEcbEapiHexUpper : String → String)
    (url : String) (origData : Json) : List (String × String) :=
  let json := Json.dumps origData
  let digest := md5hex ("nobody" ++ url ++ "use" ++ json ++ "md5forencrypt")
  [("params", aesEcbEapiHexUpper
      (String.intercalate ("-" ++ EAPI_SEP ++ "-") [url, json, digest]))]

/-- The bit-rate lookup table `{128: 128, 192: 192, 320: 320, 999: 999}`
of `_bit_rate`. -/
def bitRateTable : List (Int × Int) := [(128, 128), (192, 192), (320, 320), (999, 999)]

/-- `_bit_rate`: look the requested bit rate up in the table with default
999, then scale by 1000. -/
def bit_rate (br : Int) : Int := ((bitRateTable.lookup br).getD 999) * 1000

/-- The provider's per-call item limit `_SONG_REQUEST_LIMIT`. -/
def SONG_REQUEST_LIMIT : Nat := 1000

/-- A raw song dict as received from the provider (`song['name']`,
`song['ar']` as the list of artist names, `song['al']['name']`,
`song['al']['picUrl']`) together with the `lyric` and `url` keys the
enrichment steps patch in. -/
structure SongRaw where
  id : Nat
  name : String
  ar : List String
  alName : String
  alPicUrl : String
  lyric : Option String := none
  url : Option String := none
deriving DecidableEq, Repr

/-- Default raw song, used only as the out-of-range default of `List.getD`
in theorem statements. -/
instance : Inhabited SongRaw :=
  ⟨{ id := 0, name := "", ar := [], alName := "", alPicUrl := "" }⟩

/-- The public `api.Song` shape. -/
structure Song where
  name : String
  artist : String
  album : String
  pic_url : String
  lyric : Option String
  url : Option String
deriving DecidableEq, Repr

/-- `_resolve`: map each raw song into the public `Song` shape, trimming
whitespace from name/artists/album and joining artists with `/`. -/
def resolve (songs : List SongRaw) : List Song :=
  songs.map (fun song =>
    { name := song.name.trim
      artist := String.intercalate "/" (song.ar.map String.trim)
      album := song.alName.trim
      pic_url := song.alPicUrl
      lyric := song.lyric
      url := song.url })

/-- The decoded body of a lyric call (`get_song_lyric_raw` result):
`lrcLyric` is `resp['lrc']['lyric']`, `none` when either key is absent. -/
structure LyricResp where
  lrcLyric : Option String
deriving DecidableEq, Repr

/-- `get_song_lyric` applied to the outcome of its raw call: a raw-call
failure (transport `RequestError`, non-200 `ResponseError`, or parse
`ResponseError`) propagates; a missing `lrc.lyric` key or an empty lyric
string yields `none`. -/
def get_song_lyric (rawResult : Except Err LyricResp) : Except Err (Option String) :=
  match rawResult with
  | .error e => .error e
  | .ok resp =>
    match resp.lrcLyric with
    | none => .ok none
    | some l => .ok (if l = "" then none else some l)

/-- The lyric value a song record ends up holding when its lyric call has
outcome `r` and does not abort the batch. -/
def lyricValue (r : Except Err LyricResp) : Option String :=
  ((get_song_lyric r).toOption).getD none

/-- `_patch_song_lyric`: one lyric call per song, each result written back
into its own song record, the whole batch joined by `asyncio.gather`; the
worker catches nothing, so the first failing call makes the gather raise
(modelled by the failing `mapM`). `lyricFetch id` is the outcome of
`get_song_lyric_raw(id)`. -/
def patch_song_lyric (lyricFetch : Nat → Except Err LyricResp) :
    List SongRaw → Except Err (List SongRaw)
  | [] => .ok []
  | song :: rest =>
    match get_song_lyric (lyricFetch song.id) with
    | .error e => .error e
    | .ok l =>
      match patch_song_lyric lyricFetch rest with
      | .error e => .error e
      | .ok rest2 => .ok ({ song with lyric := l } :: rest2)

/-- One entry of the song-URL response's `data` list:
`{'id': ..., 'url': ..., 'code': ...}`; `code` is read with `.get`, hence
optional; `url` is `none` when the provider sends JSON null. -/
structure UrlEntry where
  id : Nat
  url : Option String
  code : Option Int
deriving DecidableEq, Repr

/-- The decoded body of `get_song_url_raw`: its `data` field, `none` when
absent or JSON null (`resp.get('data') is None`). -/
structure UrlResp where
  data : Option (List UrlEntry)
deriving DecidableEq, Repr

/-- The `url_map` loop of `_patch_song_url`: insert `id -> url` for exactly
the entries whose per-item `code` equals 200, later entries overwriting
earlier ones (dict assignment). The result maps a song id to `none` when
absent from the dict, and to `some u` when the dict stores `u` (itself an
optional string). -/
def url_map (entries : List UrlEntry) : Nat → Option (Option String) :=
  entries.foldl
    (fun m e =>
      if e.code = some 200 then (fun k => if k = e.id then some e.url else m k) else m)
    (fun k => none)

/-- The pure part of `_patch_song_url` once the URL call has returned
`resp`: if `data` is absent the songs are left untouched; otherwise each
song's `url` becomes `url_map.get(song['id'])` (absent ids give `None`). -/
def patch_song_url_with (resp : UrlResp) (songs : List SongRaw) : List SongRaw :=
  match resp.data with
  | none => songs
  | some entries =>
    songs.map (fun song => { song with url := (url_map entries song.id).getD none })

/-- `_patch_song_url` including its URL call: `urlFetch ids` is the outcome
of `get_song_url_raw(*ids)`; a raw-call failure propagates (nothing catches
it). -/
def patch_song_url (urlFetch : List Nat → Except Err UrlResp)
    (songs : List SongRaw) : Except Err (List SongRaw) :=
  match urlFetch (songs.map (fun s => s.id)) with
  | .error e => .error e
  | .ok resp => .ok (patch_song_url_with resp songs)

/-- A raw song of a search response (`song['id']`, `song['name']`,
`song['artists']` as the artist names, `song['album']['name']`). -/
structure RawSearchSong where
  id : Nat
  name : String
  artists : List String
  albumName : String
deriving DecidableEq, Repr

/-- The decoded body of the search endpoint: the `code` field, the optional
`msg`, and `result.songs` (`none` when `result` or `songs` is absent —
the `KeyError` path of `search_song`). -/
structure SearchResp where
  code : Int
  msg : String
  resultSongs : Option (List RawSearchSong)
deriving DecidableEq, Repr

/-- The public `api.SearchSongData` shape. -/
structure SearchSongData where
  song_id : Nat
  name : String
  artist : String
  album : String
deriving DecidableEq, Repr

/-- The public `api.SearchResult` shape. -/
structure SearchResult where
  keyword : String
  count : Nat
  songs : List SearchSongData
deriving DecidableEq, Repr

/-- The body of `search_song`'s list comprehension: one raw search song
resolved into the public `api.SearchSongData` shape. -/
def searchSongDataOf (song : RawSearchSong) : SearchSongData :=
  { song_id := song.id
    name := song.name.trim
    artist := String.intercalate "/" (song.artists.map String.trim)
    album := song.albumName.trim }

/-- `search_song` applied to the decoded search response: `search_song_raw`
rejects a non-200 `code` with a `ResponseError`; then a missing
`result.songs` raises `DataError`, an empty list raises `DataError`, and a
non-empty list resolves into a `SearchResult` with `count = len(songs)`. -/
def search_song (keyword : String) (resp : SearchResp) : Except Err SearchResult :=
  if resp.code ≠ 200 then
    .error (.responseError ("search song: " ++ resp.msg))
  else
    match resp.resultSongs with
    | none => .error (.dataError "search song: no data")
    | some songs =>
      if songs.isEmpty then
        .error (.dataError "search song: no data")
      else
        let datas := songs.map searchSongDataOf
        .ok { keyword := keyword, count := datas.length, songs := datas }

/-- The id-list truncation of `get_song_raw`: a sequence longer than
`_SONG_REQUEST_LIMIT` is silently cut to its first 1000 ids before the
request payload is built. -/
def get_song_raw_ids (song_ids : List Nat) : List Nat :=
  if song_ids.length > SONG_REQUEST_LIMIT then song_ids.take SONG_REQUEST_LIMIT
  else song_ids

/-- The request payload `{'c': json.dumps([{'id': i} for i in ids])}` that
`get_song_raw` sends (after truncation). -/
def get_song_raw_payload (song_ids : List Nat) : Json :=
  Json.obj [("c", Json.str (Json.dumps
    (Json.arr ((get_song_raw_ids song_ids).map
      (fun i => Json.obj [("id", Json.num (Int.ofNat i))])))))]

/-- The decoded body of `get_song_raw`: its `songs` list, read in the
pagination merge with `.get('songs', [])`, hence optional. -/
structure SongsResp where
  songs : Option (List SongRaw)
deriving DecidableEq, Repr

/-- Default used when indexing gathered results (never reached for a
completion order that stays within bounds). -/
instance : Inhabited SongsResp := ⟨⟨none⟩⟩

/-- Python's `range(start, stop, step)` for a positive step. -/
def pyRange (start stop step : Nat) : List Nat :=
  (List.range ((stop - start + step - 1) / step)).map (fun k => start + k * step)

/-- The pagination chunks of `get_playlist`: the loop
`for i in range(limit, total, limit)` with `j = min(i + limit, total)`,
yielding the `[i, j)` index ranges of the extra sub-calls. -/
def chunkRanges (total limit : Nat) : List (Nat × Nat) :=
  (pyRange limit total limit).map (fun i => (i, min (i + limit) total))

/-- `asyncio.gather` over the chunk tasks with the default
`return_exceptions=False`: the first task to complete with an exception
makes the gather raise that exception; `complOrder` is the order in which
the tasks complete (a permutation of the task indices). Returns `some e`
when the gather raises `e`, `none` when every task succeeded. -/
def gatherFirstError (results : List (Except Err SongsResp)) (complOrder : List Nat) :
    Option Err :=
  complOrder.findSome? (fun k =>
    match results.getD k (.ok default) with
    | .error e => some e
    | .ok _ => none)

/-- Lines 382-397 of `get_playlist`: issue one `get_song_raw` sub-call per
chunk of track ids beyond the first embedded page, `await asyncio.gather`
them (which raises the first exception to occur), and only then extend
`tracks` with `task.result().get('songs', [])` for each non-failed task in
issue order. `fetch ids` is the outcome of `get_song_raw(*ids)`. -/
def mergeChunks (fetch : List Nat → Except Err SongsResp) (complOrder : List Nat)
    (trackIds : List Nat) (total : Nat) (tracks : List SongRaw) :
    Except Err (List SongRaw) :=
  let results := (chunkRanges total SONG_REQUEST_LIMIT).map
    (fun r => fetch ((trackIds.drop r.1).take (r.2 - r.1)))
  match gatherFirstError results complOrder with
  | some e => .error e
  | none =>
    .ok (results.foldl
      (fun acc r =>
        match r with
        | .ok resp => acc ++ resp.songs.getD []
        | .error _ => acc)
      tracks)

/-- The decoded body of `get_playlist_raw`: the playlist's name, cover
image URL, `trackCount`, embedded first page `tracks`, and the full
`trackIds` list (each entry's `id`). -/
structure PlaylistResp where
  name : String
  coverImgUrl : String
  trackCount : Nat
  tracks : List SongRaw
  trackIds : List Nat
deriving DecidableEq, Repr

/-- The public `api.Playlist` shape. -/
structure Playlist where
  name : String
  pic_url : String
  count : Nat
  songs : List Song
deriving DecidableEq, Repr

/-- `get_playlist` applied to the decoded playlist response: reject an empty
playlist with `DataError`; when `trackCount` exceeds the limit run the
pagination merge (whose gather re-raises a failed chunk's exception); then
URL enrichment, lyric enrichment, and resolution into the public shape.
`fetch`, `urlFetch`, `lyricFetch` are the oracles for `get_song_raw`,
`get_song_url_raw` and `get_song_lyric_raw`; `complOrder` is the completion
order of the pagination chunk tasks. -/
def get_playlist (fetch : List Nat → Except Err SongsResp) (complOrder : List Nat)
    (urlFetch : List Nat → Except Err UrlResp)
    (lyricFetch : Nat → Except Err LyricResp)
    (resp : PlaylistResp) : Except Err Playlist :=
  if resp.trackCount = 0 then .error (.dataError "get playlist: no data")
  else
    match
      (if SONG_REQUEST_LIMIT < resp.trackCount then
        mergeChunks fetch complOrder resp.trackIds resp.trackCount resp.tracks
      else .ok resp.tracks) with
    | .error e => .error e
    | .ok tracks =>
      match patch_song_url urlFetch tracks with
      | .error e => .error e
      | .ok tracks2 =>
        match patch_song_lyric lyricFetch tracks2 with
        | .error e => .error e
        | .ok tracks3 =>
          let songs := resolve tracks3
          .ok { name := resp.name.trim
                pic_url := resp.coverImgUrl
                count := songs.length
                songs := songs }

/-- The capacity of the lyric-enrichment admission gate
(`asyncio.Semaphore(32)`). -/
def SEM_CAPACITY : Nat := 32

/-- A snapshot of the lyric fan-out of `_patch_song_lyric`: how many
workers have not yet acquired the semaphore, how many hold it with their
lyric call in flight, and how many have completed (successfully or not). -/
structure SemState where
  pending : Nat
  inflight : Nat
  done : Nat
deriving DecidableEq, Repr

/-- The two events of a worker under `async with sem`: acquiring the gate
(possible only when fewer than `SEM_CAPACITY` calls are in flight) before
issuing its lyric call, and completing the call — `ok` tells whether it
succeeded or raised, and the gate is released on either outcome because the
`async with` block releases on exit. -/
inductive SemStep : SemState → SemState → Prop where
  | acquire (s : SemState) : 0 < s.pending → s.inflight < SEM_CAPACITY →
      SemStep s ⟨s.pending - 1, s.inflight + 1, s.done⟩
  | complete (s : SemState) (ok : Bool) : 0 < s.inflight →
      SemStep s ⟨s.pending, s.inflight - 1, s.done + 1⟩

/-- The states the fan-out over a batch of `n` songs can reach: initially
all `n` workers are pending and no call is in flight. -/
inductive SemReach (n : Nat) : SemState → Prop where
  | start : SemReach n ⟨n, 0, 0⟩
  | step {s t : SemState} : SemReach n s → SemStep s t → SemReach n t

/-! ## Claim theorems -/

/-- C5: the bit-rate mapping sends 128/192/320/999 to themselves scaled by
1000, and every other integer to the default 999 scaled by 1000. -/
theorem bit_rate_spec (br : Int) :
    bit_rate br =
      (if br = 128 ∨ br = 192 ∨ br = 320 ∨ br = 999 then br else 999) * 1000 := by
  by_cases h1 : br = 128
  · subst h1; decide
  by_cases h2 : br = 192
  · subst h2; decide
  by_cases h3 : br = 320
  · subst h3; decide
  by_cases h4 : br = 999
  · subst h4; decide
  have b1 : (br == (128 : Int)) = false := by simp [h1]
  have b2 : (br == (192 : Int)) = false := by simp [h2]
  have b3 : (br == (320 : Int)) = false := by simp [h3]
  have b4 : (br == (999 : Int)) = false := by simp [h4]
  simp [bit_rate, bitRateTable, List.lookup, b1, b2, b3, b4, h1, h2, h3, h4]

/-- C6: the `linux` and `eapi` envelopes are deterministic — they do not
consult the process random source, so two runs on the same payload (and the
same url for `eapi`) under different ambient randomness produce identical
envelopes. -/
theorem linuxapi_eapi_deterministic (rand rand' : Nat → Nat)
    (md5hex aesLinux aesEapi : String → String) (url : String) (P : Json) :
    linuxapi rand aesLinux P = linuxapi rand' aesLinux P ∧
    eapi rand md5hex aesEapi url P = eapi rand' md5hex aesEapi url P :=
  ⟨rfl, rfl⟩

/-- C3 counterexample: at url `"u"` and the empty-object payload, with the
digest and cipher abstracted as the identity, the envelope `_eapi` builds
differs from the claimed one, because the source's signature message is
`nobody{url}use{json}md5forencrypt`, not `nobody{url}use{json}forencrypt`. -/
theorem eapi_claimed_counterexample :
    eapi (fun k => 0) id id "u" (Json.obj []) ≠
      eapiClaimed (fun k => 0) id id "u" (Json.obj []) := by
  decide

/-- C3 (amended): for every url and payload, the `eapi` envelope is the
single field `params` holding the hex-upper ciphertext of
`{url}-{sep}-{json}-{sep}-{digest}` joined with the fixed separator, where
the digest is taken of the signature string
`nobody{url}use{json}md5forencrypt` (the source inserts `md5` before
`forencrypt`). -/
theorem eapi_spec_amended_correct (rand : Nat → Nat)
    (md5hex aesEcbEapiHexUpper : String → String) (url : String) (P : Json) :
    eapi rand md5hex aesEcbEapiHexUpper url P =
      eapiSpecAmended rand md5hex aesEcbEapiHexUpper url P := by
  simp [eapi, eapiSpecAmended, eapiMessage, eapiData, String.intercalate,
    String.intercalate.go, String.append_assoc]

/-- C10: a song-id sequence longer than the per-call limit of 1000 is
silently truncated to its first 1000 ids before the `get_song_raw` request
payload is built: the ids in the payload are exactly the first 1000, and no
error is produced for the excess. -/
theorem get_song_raw_truncates (ids : List Nat)
    (h : SONG_REQUEST_LIMIT < ids.length) :
    get_song_raw_ids ids = ids.take SONG_REQUEST_LIMIT ∧
    (get_song_raw_ids ids).length = SONG_REQUEST_LIMIT ∧
    get_song_raw_payload ids = get_song_raw_payload (ids.take SONG_REQUEST_LIMIT) := by
  have hids : get_song_raw_ids ids = ids.take SONG_REQUEST_LIMIT := by
    simp [get_song_raw_ids, h]
  have htake : get_song_raw_ids (ids.take SONG_REQUEST_LIMIT) =
      ids.take SONG_REQUEST_LIMIT := by
    simp [get_song_raw_ids]
  refine ⟨hids, ?_, ?_⟩
  · rw [hids, List.length_take]
    exact Nat.min_eq_left (Nat.le_of_lt h)
  · simp [get_song_raw_payload, hids, htake]

/-- C10 witness: a concrete sequence of 1001 ids is truncated to its first
1000. -/
theorem get_song_raw_truncates_witness :
    SONG_REQUEST_LIMIT < (List.range 1001).length ∧
    get_song_raw_ids (List.range 1001) = (List.range 1001).take SONG_REQUEST_LIMIT ∧
    (get_song_raw_ids (List.range 1001)).length = SONG_REQUEST_LIMIT := by
  have h : SONG_REQUEST_LIMIT < (List.range 1001).length := by
    simp [SONG_REQUEST_LIMIT]
  exact ⟨h, (get_song_raw_truncates (List.range 1001) h).1,
    (get_song_raw_truncates (List.range 1001) h).2.1⟩

/-- C7: on a successful (code 200) search response, a missing or empty
`result.songs` list makes `search_song` fail with the `DataError`
`search song: no data` instead of returning an empty `SearchResult`; a
non-empty list yields a `SearchResult` whose `count` equals the number of
returned songs. -/
theorem search_song_no_data_or_count (keyword : String) (resp : SearchResp)
    (h : resp.code = 200) :
    ((resp.resultSongs = none ∨ resp.resultSongs = some []) →
      search_song keyword resp = .error (Err.dataError "search song: no data")) ∧
    (∀ l, resp.resultSongs = some l → l ≠ [] →
      ∃ r, search_song keyword resp = .ok r ∧ r.count = r.songs.length ∧
        r.songs.length = l.length) := by
  constructor
  · rintro (hs | hs) <;> simp [search_song, h, hs]
  · intro l hl hne
    have hne' : l.isEmpty = false := List.isEmpty_eq_false.mpr hne
    refine ⟨{ keyword := keyword
              count := (l.map searchSongDataOf).length
              songs := l.map searchSongDataOf }, ?_, rfl, by simp⟩
    simp [search_song, h, hl, hne']

/-- C7 witness: a concrete code-200 response with an empty songs list is
rejected with the `DataError`, and a concrete one-song response yields
count 1. -/
theorem search_song_no_data_witness :
    search_song "k" ⟨200, "", some []⟩ = .error (Err.dataError "search song: no data") ∧
    ∃ r, search_song "k" ⟨200, "", some [⟨5, "n", ["a"], "al"⟩]⟩ = .ok r ∧
      r.count = r.songs.length ∧ r.songs.length = 1 := by
  constructor
  · exact (search_song_no_data_or_count "k" ⟨200, "", some []⟩ rfl).1 (Or.inr rfl)
  · exact (search_song_no_data_or_count "k" ⟨200, "", some [⟨5, "n", ["a"], "al"⟩]⟩
      rfl).2 [⟨5, "n", ["a"], "al"⟩] rfl (by simp)

/-- C9: in the lyric fan-out's admission-gate transition system, every state
reachable from a batch of `n` pending workers has at most `SEM_CAPACITY`
(= 32) lyric calls in flight: the gate is acquired before a call is issued
and released on completion whether the call succeeded or failed. -/
theorem sem_inflight_bounded (n : Nat) (s : SemState) (h : SemReach n s) :
    s.inflight ≤ SEM_CAPACITY := by
  induction h with
  | start => exact Nat.zero_le _
  | step hr hst ih =>
    cases hst with
    | acquire hp hcap => exact hcap
    | complete ok hi => exact Nat.le_trans (Nat.sub_le _ _) ih

/-- C9 witness: for a batch of 100 songs, the state after one worker
acquires the gate is reachable and satisfies the bound. -/
theorem sem_inflight_bounded_witness :
    (⟨99, 1, 0⟩ : SemState).inflight ≤ SEM_CAPACITY :=
  sem_inflight_bounded 100 ⟨99, 1, 0⟩
    (SemReach.step SemReach.start
      (SemStep.acquire ⟨100, 0, 0⟩ (by decide) (by decide)))

/-- A concrete two-song batch and a lyric oracle whose call for song 1
fails with a transport error, exercising the lyric-enrichment failure
path. -/
def c2LyricFetch : Nat → Except Err LyricResp := fun i =>
  if i = 1 then .error (.requestError "get song lyric: timeout")
  else .ok ⟨some "la"⟩

/-- A concrete raw song with id 1. -/
def c2Song1 : SongRaw := { id := 1, name := "a", ar := ["x"], alName := "b", alPicUrl := "p" }

/-- A concrete raw song with id 2. -/
def c2Song2 : SongRaw := { id := 2, name := "c", ar := ["y"], alName := "d", alPicUrl := "q" }

/-- C2 counterexample: when the lyric call for song 1 fails with a
transport error, `_patch_song_lyric` aborts the whole batch with that error
(the worker catches nothing and the gather re-raises), instead of setting
song 1's lyric to null and continuing. -/
theorem patch_song_lyric_abort_counterexample :
    patch_song_lyric c2LyricFetch [c2Song1, c2Song2] =
      .error (Err.requestError "get song lyric: timeout") := by
  rfl

/-- C2 (amended): per-song lyric results are written into their own song
records; a lyric call that yields a successful, parsed response whose
`lrc.lyric` field is missing (or empty) gives that song a null lyric and the
batch continues; but a lyric call failing with a transport error,
non-success status code, or parse failure aborts the whole batch with that
error. -/
theorem patch_song_lyric_spec (lyricFetch : Nat → Except Err LyricResp)
    (songs : List SongRaw) :
    ((∀ s ∈ songs, ∃ r, lyricFetch s.id = .ok r) →
      patch_song_lyric lyricFetch songs =
        .ok (songs.map (fun s => { s with lyric := lyricValue (lyricFetch s.id) }))) ∧
    ((∃ s ∈ songs, ∃ e, lyricFetch s.id = .error e) →
      ∃ e, patch_song_lyric lyricFetch songs = .error e) ∧
    (∀ r : LyricResp, r.lrcLyric = none ∨ r.lrcLyric = some "" →
      lyricValue (.ok r) = none) := by
  refine ⟨?_, ?_, ?_⟩
  · intro hok
    induction songs with
    | nil => rfl
    | cons s rest ih =>
      obtain ⟨r, hr⟩ := hok s (List.mem_cons_self s rest)
      have hrest := ih (fun t ht => hok t (List.mem_cons_of_mem s ht))
      simp only [patch_song_lyric, hrest, List.map_cons]
      have hv : get_song_lyric (lyricFetch s.id) =
          .ok (lyricValue (lyricFetch s.id)) := by
        rw [hr]
        cases hc : r.lrcLyric <;>
          simp [get_song_lyric, lyricValue, hc, hr, Except.toOption]
      rw [hv]
  · intro hbad
    induction songs with
    | nil => simp at hbad
    | cons s rest ih =>
      rcases hbad with ⟨t, ht, e, he⟩
      rcases List.mem_cons.mp ht with rfl | htail
      · exact ⟨e, by simp [patch_song_lyric, get_song_lyric, he]⟩
      · cases hhead : get_song_lyric (lyricFetch s.id) with
        | error e2 => exact ⟨e2, by simp [patch_song_lyric, hhead]⟩
        | ok l =>
          obtain ⟨e3, he3⟩ := ih ⟨t, htail, e, he⟩
          exact ⟨e3, by simp [patch_song_lyric, hhead, he3]⟩
  · rintro r (hr | hr) <;> simp [lyricValue, get_song_lyric, hr, Except.toOption]

/-- C2 amended-claim witness: a concrete successful lyric response lacking
the `lrc.lyric` field leaves a null lyric on its song and the batch
completes. -/
theorem patch_song_lyric_spec_witness :
    patch_song_lyric (fun i => .ok ⟨none⟩) [c2Song1] =
      .ok [{ c2Song1 with lyric := none }] := by
  have h := (patch_song_lyric_spec (fun i => .ok ⟨none⟩) [c2Song1]).1
    (fun s hs => ⟨⟨none⟩, rfl⟩)
  simpa using h

/-- Helper: the `url_map` loop leaves a key untouched when no successful
entry carries it (stated for an arbitrary accumulated dict `m`). -/
lemma url_map_foldl_not_found (entries : List UrlEntry)
    (m : Nat → Option (Option String)) (k : Nat)
    (h : ∀ e ∈ entries, e.code = some 200 → e.id ≠ k) :
    entries.foldl
      (fun m e =>
        if e.code = some 200 then (fun j => if j = e.id then some e.url else m j) else m)
      m k = m k := by
  induction entries generalizing m with
  | nil => rfl
  | cons e es ih =>
    simp only [List.foldl_cons]
    by_cases hc : e.code = some 200
    · rw [ih _ (fun e' he' => h e' (List.mem_cons_of_mem e he'))]
      have hne : k ≠ e.id := fun hk => h e (List.mem_cons_self e es) hc hk.symm
      simp [hc, hne]
    · rw [ih _ (fun e' he' => h e' (List.mem_cons_of_mem e he'))]
      simp [hc]

/-- Helper: a key the `url_map` loop ends up holding was put there by some
entry with per-item code 200. -/
lemma url_map_foldl_found (entries : List UrlEntry)
    (m : Nat → Option (Option String)) (k : Nat)
    (h : (entries.foldl
      (fun m e =>
        if e.code = some 200 then (fun j => if j = e.id then some e.url else m j) else m)
      m k).isSome) :
    (∃ e ∈ entries, e.code = some 200 ∧ e.id = k) ∨ (m k).isSome := by
  induction entries generalizing m with
  | nil => exact Or.inr h
  | cons e es ih =>
    simp only [List.foldl_cons] at h
    rcases ih _ h with ⟨e', he', hc', hk'⟩ | hm
    · exact Or.inl ⟨e', List.mem_cons_of_mem e he', hc', hk'⟩
    · by_cases hc : e.code = some 200
      · simp only [hc, if_pos] at hm
        by_cases hk : k = e.id
        · exact Or.inl ⟨e, List.mem_cons_self e es, hc, hk.symm⟩
        · simp [hk] at hm
          exact Or.inr hm
      · simp only [hc, if_neg, ite_false] at hm
        exact Or.inr hm

/-- C8: URL enrichment builds its id-to-url lookup only from response
entries whose per-item code equals 200; a song whose id is absent from the
lookup gets a null URL; and per-item non-success codes never fail the
operation — `_patch_song_url` completes, preserving the batch's length. -/
theorem patch_song_url_lookup (entries : List UrlEntry) (songs : List SongRaw) :
    ((patch_song_url_with ⟨some entries⟩ songs).length = songs.length) ∧
    (patch_song_url (fun ids => .ok ⟨some entries⟩) songs =
      .ok (patch_song_url_with ⟨some entries⟩ songs)) ∧
    (∀ k, (url_map entries k).isSome → ∃ e ∈ entries, e.code = some 200 ∧ e.id = k) ∧
    (∀ i, i < songs.length →
      (∀ e ∈ entries, e.code = some 200 → e.id ≠ (songs.getD i default).id) →
      ((patch_song_url_with ⟨some entries⟩ songs).getD i default).url = none) := by
  refine ⟨by simp [patch_song_url_with], rfl, ?_, ?_⟩
  · intro k hk
    rcases url_map_foldl_found entries _ k hk with hfound | habs
    · exact hfound
    · exact absurd habs (by simp)
  · intro i hi hnone
    have hw : patch_song_url_with ⟨some entries⟩ songs =
        songs.map (fun song => { song with url := (url_map entries song.id).getD none }) :=
      rfl
    have hsome : songs[i]? = some (songs.getD i default) := by
      rw [List.getD_eq_getElem _ _ hi]
      exact List.getElem?_eq_getElem hi
    have hmap : url_map entries ((songs.getD i default).id) = none :=
      url_map_foldl_not_found entries _ _ hnone
    rw [hw, List.getD_eq_getElem?_getD, List.getElem?_map, hsome, Option.map_some',
      Option.getD_some]
    have hmap' : url_map entries ((songs[i]?.getD default)).id = none := by
      rw [← List.getD_eq_getElem?_getD]
      exact hmap
    simp [hmap']

/-- Concrete five-song batch for the C8 witness. -/
def c8Songs : List SongRaw :=
  [{ id := 1, name := "s1", ar := [], alName := "", alPicUrl := "" },
   { id := 2, name := "s2", ar := [], alName := "", alPicUrl := "" },
   { id := 3, name := "s3", ar := [], alName := "", alPicUrl := "" },
   { id := 4, name := "s4", ar := [], alName := "", alPicUrl := "" },
   { id := 5, name := "s5", ar := [], alName := "", alPicUrl := "" }]

/-- Concrete URL response entries for the C8 witness: song 3's per-item
code is 404, the other four succeed. -/
def c8Entries : List UrlEntry :=
  [{ id := 1, url := some "u1", code := some 200 },
   { id := 2, url := some "u2", code := some 200 },
   { id := 3, url := none, code := some 404 },
   { id := 4, url := some "u4", code := some 200 },
   { id := 5, url := some "u5", code := some 200 }]

/-- C8 witness: with one non-success entry among five, the batch completes
with song 3's URL null and the other four URLs intact. -/
theorem patch_song_url_lookup_witness :
    (patch_song_url_with ⟨some c8Entries⟩ c8Songs).length = c8Songs.length ∧
    ((patch_song_url_with ⟨some c8Entries⟩ c8Songs).getD 2 default).url = none ∧
    (patch_song_url_with ⟨some c8Entries⟩ c8Songs).map (fun s => s.url) =
      [some "u1", some "u2", none, some "u4", some "u5"] := by
  have hparts := patch_song_url_lookup c8Entries c8Songs
  exact ⟨hparts.1, hparts.2.2.2 2 (by decide) (by decide), by decide⟩

/-- Helper: when every gathered chunk task succeeded, the gather raises
nothing, no matter in which order the tasks completed. -/
lemma gatherFirstError_all_ok (results : List (Except Err SongsResp))
    (complOrder : List Nat) (h : ∀ r ∈ results, ∃ resp, r = .ok resp) :
    gatherFirstError results complOrder = none := by
  unfold gatherFirstError
  rw [List.findSome?_eq_none_iff]
  intro k hk
  cases hget : results[k]? with
  | none => simp [hget]
  | some r =>
    have hmem : r ∈ results :=
      List.get?_mem (by rw [List.get?_eq_getElem?]; exact hget)
    obtain ⟨resp, hr⟩ := h r hmem
    simp [hget, hr]

/-- C4: for a playlist of 2500 tracks and the per-call limit of 1000,
exactly two extra sub-calls are issued, for track-id indices `[1000, 2000)`
and `[2000, 2500)`; and when both succeed their songs are appended to the
first embedded page in chunk-issue order, whatever order the chunk tasks
complete in. -/
theorem playlist_pagination_2500 (fetch : List Nat → Except Err SongsResp)
    (complOrder : List Nat) (trackIds : List Nat) (firstPage : List SongRaw)
    (r1 r2 : SongsResp)
    (h1 : fetch ((trackIds.drop 1000).take 1000) = .ok r1)
    (h2 : fetch ((trackIds.drop 2000).take 500) = .ok r2) :
    chunkRanges 2500 SONG_REQUEST_LIMIT = [(1000, 2000), (2000, 2500)] ∧
    mergeChunks fetch complOrder trackIds 2500 firstPage =
      .ok (firstPage ++ r1.songs.getD [] ++ r2.songs.getD []) := by
  have hcr : chunkRanges 2500 SONG_REQUEST_LIMIT = [(1000, 2000), (2000, 2500)] := by
    decide
  refine ⟨hcr, ?_⟩
  have hres : (chunkRanges 2500 SONG_REQUEST_LIMIT).map
      (fun r => fetch ((trackIds.drop r.1).take (r.2 - r.1))) =
      [fetch ((trackIds.drop 1000).take 1000), fetch ((trackIds.drop 2000).take 500)] := by
    rw [hcr]; rfl
  have hnone : gatherFirstError [Except.ok r1, Except.ok r2] complOrder = none :=
    gatherFirstError_all_ok _ complOrder (by
      intro r hr
      rcases List.mem_cons.mp hr with rfl | hr2
      · exact ⟨r1, rfl⟩
      rcases List.mem_cons.mp hr2 with rfl | hr3
      · exact ⟨r2, rfl⟩
      simp at hr3)
  simp only [mergeChunks, hres, h1, h2, hnone, List.foldl_cons, List.foldl_nil]

/-- The C4 witness track-id list: ids 0..2499. -/
def c4TrackIds : List Nat := List.range 2500

/-- A raw song carrying just an id, as returned by the C4 witness oracle. -/
def c4SongOf (i : Nat) : SongRaw :=
  { id := i, name := "t", ar := [], alName := "", alPicUrl := "" }

/-- The C4 witness `get_song_raw` oracle: every chunk call succeeds,
returning one song per requested id. -/
def c4Fetch : List Nat → Except Err SongsResp :=
  fun ids => .ok ⟨some (ids.map c4SongOf)⟩

set_option maxRecDepth 40000 in
/-- C4 witness: at the concrete 2500-track playlist, with completion order
`[1, 0]` (the second chunk finishing first), the merged list is the first
page followed by chunk 1's songs and then chunk 2's songs. -/
theorem playlist_pagination_2500_witness :
    chunkRanges 2500 SONG_REQUEST_LIMIT = [(1000, 2000), (2000, 2500)] ∧
    mergeChunks c4Fetch [1, 0] c4TrackIds 2500 [] =
      .ok (([] : List SongRaw) ++
        ((c4TrackIds.drop 1000).take 1000).map c4SongOf ++
        ((c4TrackIds.drop 2000).take 500).map c4SongOf) :=
  playlist_pagination_2500 c4Fetch [1, 0] c4TrackIds []
    ⟨some (((c4TrackIds.drop 1000).take 1000).map c4SongOf)⟩
    ⟨some (((c4TrackIds.drop 2000).take 500).map c4SongOf)⟩ rfl rfl

/-- The C1 failing playlist response: 1001 tracks, so one extra pagination
sub-call is issued. -/
def c1Resp : PlaylistResp :=
  { name := "p", coverImgUrl := "c", trackCount := 1001, tracks := [],
    trackIds := List.replicate 1001 7 }

/-- The C1 chunk oracle: the extra pagination sub-call fails with a
transport error. -/
def c1Fetch : List Nat → Except Err SongsResp :=
  fun ids => .error (.requestError "get song: timeout")

/-- C1 (code bug): when an extra pagination sub-call fails, `get_playlist`
does not swallow the failure — `await asyncio.gather(*tasks)` (with the
default `return_exceptions=False`) re-raises the chunk's exception before
the result-collection loop runs, so the whole operation raises instead of
returning a `Playlist` built from the remaining chunks. -/
theorem get_playlist_chunk_failure_raises :
    get_playlist c1Fetch [0] (fun ids => .ok ⟨some []⟩) (fun i => .ok ⟨none⟩) c1Resp =
      .error (Err.requestError "get song: timeout") := by
  rfl

end NetEase
